import Mathlib

/-!
Verification of the study-streak / reward-currency core of
`stella_english_cheerleader` (`src/main.py`), shallowly embedded in Lean 4.

Modelling conventions:
* Calendar dates are integers counting days since 1970-01-01, so
  `1970-01-01` itself is day `0` and Python's `(d1 - d2).days` is plain
  integer subtraction.
* A JST wall-clock instant is a `JstTime`: its local calendar date plus the
  local hour and minute (the code only inspects the hour).
* The `user_stats` table is a `Db := Nat → Option UserStats`: a partial map
  from user id to the row's three columns.  The `riga_coin_balance` column
  has SQL default `0`, so an `INSERT` that omits it (as `update_streak`'s
  upsert does) creates the row with balance `0`.
* `add_riga_coins` runs `UPDATE ... RETURNING` and then `fetchone()[0]`,
  which raises if no row matched; it is therefore modelled as returning
  `Option`, with `none` for that failure.  A raised exception aborts the
  surrounding transaction, so the caller's state is unchanged in that case.
-/

namespace Stella

/-- A user id (Discord snowflake), modelled as a natural number. -/
abbrev UserId := Nat

/-- The date `1970-01-01`, the sentinel `last_study_date` used by `/send`
when it creates a recipient row. -/
def date1970_01_01 : Int := 0

/-- A JST wall-clock instant: local calendar date, hour and minute. -/
structure JstTime where
  date : Int
  hour : Nat
  minute : Nat
  deriving Repr, DecidableEq

/-- `get_study_date` (src/main.py:25-33): the logical study day of a JST
instant; hours 0,1,2 count toward the previous calendar date. -/
def get_study_date (current_time_jst : JstTime) : Int :=
  if current_time_jst.hour < 3 then
    current_time_jst.date - 1
  else
    current_time_jst.date

/-- One row of the `user_stats` table. -/
structure UserStats where
  current_streak : Int
  last_study_date : Int
  riga_coin_balance : Int
  deriving Repr, DecidableEq

/-- The `user_stats` table: a partial map from user id to row. -/
def Db := UserId → Option UserStats

/-- The new streak value computed by `update_streak` (src/main.py:43-61)
from the fetched row and the study date: `new_streak` starts at `1`; if a
row exists and `days_diff == 1` it becomes `last_streak + 1`, if
`days_diff == 0` it becomes `last_streak`, otherwise it stays `1`. -/
def new_streak_of (result : Option UserStats) (study_date : Int) : Int :=
  match result with
  | none => 1
  | some row =>
      let days_diff := study_date - row.last_study_date
      if days_diff = 1 then row.current_streak + 1
      else if days_diff = 0 then row.current_streak
      else 1

/-- `update_streak` (src/main.py:43-61): fetch the row, compute the new
streak, and upsert `(user_id, new_streak, study_date)`.  The upsert's
`INSERT` names only `user_id, current_streak, last_study_date`, so a fresh
row gets the column default `0` for `riga_coin_balance`; on conflict only
`current_streak` and `last_study_date` are overwritten.  Returns the
updated table and the new streak. -/
def update_streak (db : Db) (user_id : UserId) (study_date : Int) :
    Db × Int :=
  let result := db user_id
  let new_streak := new_streak_of result study_date
  let balance := match result with
    | none => 0
    | some row => row.riga_coin_balance
  let db' : Db := fun u =>
    if u = user_id then
      some ⟨new_streak, study_date, balance⟩
    else db u
  (db', new_streak)

/-- `add_riga_coins` (src/main.py:63-75): `UPDATE user_stats SET
riga_coin_balance = riga_coin_balance + amount WHERE user_id = ...
RETURNING riga_coin_balance`, then `fetchone()[0]`.  If no row matches,
`fetchone()` is `None` and the subscript raises: modelled as `none`. -/
def add_riga_coins (db : Db) (user_id : UserId) (amount_to_add : Int) :
    Option (Db × Int) :=
  match db user_id with
  | none => none
  | some row =>
      let new_balance := row.riga_coin_balance + amount_to_add
      let db' : Db := fun u =>
        if u = user_id then some { row with riga_coin_balance := new_balance }
        else db u
      some (db', new_balance)

/-- The `is_first_record_of_day` flag of `StudyButton.callback`
(src/main.py:135-143): true iff the user has no row, or
`(study_date - last_study_date).days >= 1`. -/
def is_first_record_of_day (db : Db) (user_id : UserId) (study_date : Int) :
    Bool :=
  match db user_id with
  | none => true
  | some row => study_date - row.last_study_date ≥ 1

/-- What `StudyButton.callback` reports back for one study event. -/
structure StudyResult where
  streak : Int
  awarded : Int
  balance : Int
  deriving Repr, DecidableEq

/-- The database core of `StudyButton.callback` (src/main.py:127-172),
minus the append-only `learning_records` insert and the message
formatting: compute `is_first_record_of_day`, run `update_streak`, and if
`new_streak >= 7` award `min(new_streak - 6, 50)` riga on the first record
of the day and `1` riga otherwise.  `riga_awarded` and `new_balance` start
at `0` and are only changed in the `new_streak >= 7` branches.  `none`
models the exception path (which rolls the transaction back). -/
def recordStudy (db : Db) (user_id : UserId) (study_date : Int) :
    Option (Db × StudyResult) :=
  let first := is_first_record_of_day db user_id study_date
  let (db1, new_streak) := update_streak db user_id study_date
  if new_streak ≥ 7 then
    if first then
      let potential_riga := new_streak - 6
      let riga_to_add := min potential_riga 50
      match add_riga_coins db1 user_id riga_to_add with
      | none => none
      | some (db2, new_balance) =>
          some (db2, ⟨new_streak, riga_to_add, new_balance⟩)
    else
      match add_riga_coins db1 user_id 1 with
      | none => none
      | some (db2, new_balance) =>
          some (db2, ⟨new_streak, 1, new_balance⟩)
  else
    some (db1, ⟨new_streak, 0, 0⟩)

/-- The rejection reasons of the `/send` command. -/
inductive TransferError where
  | SelfTransfer
  | InvalidAmount
  | InsufficientFunds
  deriving Repr, DecidableEq

/-- The `/send` command (src/main.py:259-301): reject a self-transfer,
then a non-positive amount; inside one transaction, reject if the sender
has no row or a balance below `amount`, else debit the sender and upsert
the recipient (`INSERT ... VALUES (id, 0, '1970-01-01', amount) ON
CONFLICT DO UPDATE SET riga_coin_balance = riga_coin_balance + amount`).
Returns the resulting table and the rejection reason if any; on every
rejection the returned table is the input table (rollback). -/
def send (db : Db) (sender_id recipient_id : UserId) (amount : Int) :
    Db × Option TransferError :=
  if sender_id = recipient_id then
    (db, some .SelfTransfer)
  else if amount ≤ 0 then
    (db, some .InvalidAmount)
  else
    match db sender_id with
    | none => (db, some .InsufficientFunds)
    | some srow =>
        if srow.riga_coin_balance < amount then
          (db, some .InsufficientFunds)
        else
          let db1 : Db := fun u =>
            if u = sender_id then
              some { srow with
                     riga_coin_balance := srow.riga_coin_balance - amount }
            else db u
          let db2 : Db := fun u =>
            if u = recipient_id then
              match db1 recipient_id with
              | none => some ⟨0, date1970_01_01, amount⟩
              | some rrow =>
                  some { rrow with
                         riga_coin_balance := rrow.riga_coin_balance + amount }
            else db1 u
          (db2, none)

/-- The reminder predicate of `check_for_reminders` (src/main.py:91-93):
user `u` is selected iff their row exists and
`last_study_date = previous_study_day`. -/
def reminder_target (db : Db) (previous_study_day : Int) (u : UserId) :
    Bool :=
  match db u with
  | none => false
  | some row => row.last_study_date = previous_study_day

/-- The boundary date computed by `check_for_reminders` (src/main.py:85-87):
`previous_study_day = get_study_date(now) - timedelta(days=1)`. -/
def check_for_reminders_prev_day (now : JstTime) : Int :=
  get_study_date now - 1

/-- A core operation on the store, for stating whole-history invariants. -/
inductive Op where
  | study (user_id : UserId) (study_date : Int)
  | transfer (sender_id recipient_id : UserId) (amount : Int)
  deriving Repr, DecidableEq

/-- Apply one operation to the table; a failed (exception) study event
rolls back to the input table. -/
def applyOp (db : Db) : Op → Db
  | .study u d =>
      match recordStudy db u d with
      | none => db
      | some (db', _) => db'
  | .transfer s r a => (send db s r a).1

/-- Apply a whole history of operations in order. -/
def applyOps (db : Db) (ops : List Op) : Db :=
  ops.foldl applyOp db

/-- Every existing row has a non-negative riga balance. -/
def BalancesNonneg (db : Db) : Prop :=
  ∀ u row, db u = some row → 0 ≤ row.riga_coin_balance

/-- The riga balance a table assigns to a user: the row's
`riga_coin_balance`, or `0` for an absent row (the column default). -/
def balanceOf (db : Db) (v : UserId) : Int :=
  ((db v).map UserStats.riga_coin_balance).getD 0

/-! ### Concrete tables used by witnesses and counterexamples -/

/-- The empty `user_stats` table. -/
def dbEmpty : Db := fun _ => none

/-- A table with one row: user 1, streak 4, last study day 100, balance 0. -/
def dbStreak4 : Db := fun u => if u = 1 then some ⟨4, 100, 0⟩ else none

/-- A table with one row: user 1, streak 5, last study day 10, balance 0. -/
def dbSkew : Db := fun u => if u = 1 then some ⟨5, 10, 0⟩ else none

/-! ### General lemmas about the embedding -/

theorem update_streak_snd (db : Db) (u : UserId) (d : Int) :
    (update_streak db u d).2 = new_streak_of (db u) d := rfl

theorem new_streak_of_some (row : UserStats) (d : Int) :
    new_streak_of (some row) d =
      if d - row.last_study_date = 1 then row.current_streak + 1
      else if d - row.last_study_date = 0 then row.current_streak
      else 1 := rfl

theorem update_streak_fst_self (db : Db) (u : UserId) (d : Int) :
    (update_streak db u d).1 u =
      some ⟨new_streak_of (db u) d, d, balanceOf db u⟩ := by
  cases hdb : db u <;> simp [update_streak, balanceOf, hdb]

theorem update_streak_fst_other (db : Db) (u v : UserId) (d : Int)
    (hv : v ≠ u) : (update_streak db u d).1 v = db v := by
  simp [update_streak, hv]

theorem recordStudy_low (db : Db) (u : UserId) (d : Int)
    (h : ¬ 7 ≤ new_streak_of (db u) d) :
    recordStudy db u d =
      some ((update_streak db u d).1, ⟨new_streak_of (db u) d, 0, 0⟩) := by
  unfold recordStudy
  rw [show update_streak db u d =
        ((update_streak db u d).1, (update_streak db u d).2) from rfl]
  simp only [update_streak_snd, ge_iff_le, if_neg h]

theorem recordStudy_high_first (db : Db) (u : UserId) (d : Int)
    (h7 : 7 ≤ new_streak_of (db u) d)
    (hf : is_first_record_of_day db u d = true) :
    recordStudy db u d =
      some (fun v => if v = u then
              some ⟨new_streak_of (db u) d, d,
                    balanceOf db u + min (new_streak_of (db u) d - 6) 50⟩
            else db v,
            ⟨new_streak_of (db u) d, min (new_streak_of (db u) d - 6) 50,
             balanceOf db u + min (new_streak_of (db u) d - 6) 50⟩) := by
  unfold recordStudy
  rw [show update_streak db u d =
        ((update_streak db u d).1, (update_streak db u d).2) from rfl]
  simp only [update_streak_snd, ge_iff_le, if_pos h7, hf, if_pos]
  unfold add_riga_coins
  rw [update_streak_fst_self]
  simp only [Option.some.injEq, Prod.mk.injEq]
  refine ⟨funext fun v => ?_, trivial⟩
  by_cases hv : v = u
  · subst hv
    simp
  · simp [hv, update_streak_fst_other db u v d hv]

theorem recordStudy_high_repeat (db : Db) (u : UserId) (d : Int)
    (h7 : 7 ≤ new_streak_of (db u) d)
    (hf : is_first_record_of_day db u d = false) :
    recordStudy db u d =
      some (fun v => if v = u then
              some ⟨new_streak_of (db u) d, d, balanceOf db u + 1⟩
            else db v,
            ⟨new_streak_of (db u) d, 1, balanceOf db u + 1⟩) := by
  unfold recordStudy
  rw [show update_streak db u d =
        ((update_streak db u d).1, (update_streak db u d).2) from rfl]
  simp only [update_streak_snd, ge_iff_le, if_pos h7, hf]
  unfold add_riga_coins
  rw [update_streak_fst_self]
  simp only [Bool.false_eq_true, if_false, Option.some.injEq, Prod.mk.injEq]
  refine ⟨funext fun v => ?_, trivial⟩
  by_cases hv : v = u
  · subst hv
    simp
  · simp [hv, update_streak_fst_other db u v d hv]

/-! ### C1: streak transition function -/

/-- C1: for every study event, `update_streak` computes the new streak from
the prior row and today's logical day: with no prior row the new streak is
1; with `gap = today - last_day`, `gap = 0` leaves the streak unchanged,
`gap = 1` increments it, and `gap > 1` resets it to 1. -/
theorem update_streak_transition (db : Db) (user_id : UserId)
    (study_date : Int) :
    (db user_id = none → (update_streak db user_id study_date).2 = 1) ∧
    (∀ row, db user_id = some row →
      (study_date - row.last_study_date = 0 →
        (update_streak db user_id study_date).2 = row.current_streak) ∧
      (study_date - row.last_study_date = 1 →
        (update_streak db user_id study_date).2 = row.current_streak + 1) ∧
      (1 < study_date - row.last_study_date →
        (update_streak db user_id study_date).2 = 1)) := by
  constructor
  · intro h
    rw [update_streak_snd, h]
    rfl
  · intro row h
    rw [update_streak_snd, h]
    refine ⟨fun hg => ?_, fun hg => ?_, fun hg => ?_⟩ <;>
      rw [new_streak_of_some]
    · have h1 : ¬ study_date - row.last_study_date = 1 := by omega
      rw [if_neg h1, if_pos hg]
    · rw [if_pos hg]
    · have h1 : ¬ study_date - row.last_study_date = 1 := by omega
      have h0 : ¬ study_date - row.last_study_date = 0 := by omega
      rw [if_neg h1, if_neg h0]

/-- C1 witness: a first-ever event yields streak 1, and a gap-1 event on a
streak of 4 yields streak 5. -/
theorem update_streak_transition_witness :
    (dbEmpty 1 = none ∧ (update_streak dbEmpty 1 5).2 = 1) ∧
    (dbStreak4 1 = some ⟨4, 100, 0⟩ ∧ (101 : Int) - 100 = 1 ∧
      (update_streak dbStreak4 1 101).2 = 4 + 1) :=
  ⟨⟨rfl, (update_streak_transition dbEmpty 1 5).1 rfl⟩,
   ⟨rfl, by decide,
    ((update_streak_transition dbStreak4 1 101).2 ⟨4, 100, 0⟩ rfl).2.1
      (by decide)⟩⟩

/-! ### C5: logical-day resolver -/

/-- C5: `get_study_date` returns the local date minus one day when the
local hour is in `[0, 3)`, and the local date otherwise; in particular
2:59 maps to the previous date and 3:00 to the current date (witness). -/
theorem get_study_date_grace_window (t : JstTime) :
    (t.hour < 3 → get_study_date t = t.date - 1) ∧
    (¬ t.hour < 3 → get_study_date t = t.date) :=
  ⟨fun h => by simp [get_study_date, h], fun h => by simp [get_study_date, h]⟩

/-- C5 witness: a 2:59 instant maps to the previous date, a 3:00 instant
to the current date. -/
theorem get_study_date_grace_window_witness :
    ((⟨20000, 2, 59⟩ : JstTime).hour < 3 ∧
      get_study_date ⟨20000, 2, 59⟩ = 20000 - 1) ∧
    (¬ (⟨20000, 3, 0⟩ : JstTime).hour < 3 ∧
      get_study_date ⟨20000, 3, 0⟩ = 20000) :=
  ⟨⟨by decide, (get_study_date_grace_window ⟨20000, 2, 59⟩).1 (by decide)⟩,
   ⟨by decide, (get_study_date_grace_window ⟨20000, 3, 0⟩).2 (by decide)⟩⟩

/-! ### C6: negative gap (backward clock skew) -/

/-- C6 counterexample: with a prior row (streak 5, last day 10) and study
day 9 (gap −1), `update_streak` returns 1, not the unchanged streak 5 the
claim requires. -/
theorem update_streak_negative_gap_cex :
    dbSkew 1 = some ⟨5, 10, 0⟩ ∧ (9 : Int) - 10 < 0 ∧
    (update_streak dbSkew 1 9).2 = 1 ∧
    ¬ (update_streak dbSkew 1 9).2 = 5 := by
  refine ⟨rfl, by decide, ?_, ?_⟩ <;> decide

/-- C6 amended: on a negative gap (last_day strictly after today) the
streak engine resets the streak to 1, exactly as for a gap greater
than 1 — it does not leave the streak unchanged. -/
theorem update_streak_negative_gap (db : Db) (u : UserId) (d : Int)
    (row : UserStats) (h : db u = some row)
    (hg : d - row.last_study_date < 0) :
    (update_streak db u d).2 = 1 := by
  rw [update_streak_snd, h, new_streak_of_some]
  have h1 : ¬ d - row.last_study_date = 1 := by omega
  have h0 : ¬ d - row.last_study_date = 0 := by omega
  rw [if_neg h1, if_neg h0]

/-- C6 amended witness: streak 5 with last day 10 studied on day 9 resets
to 1. -/
theorem update_streak_negative_gap_witness :
    dbSkew 1 = some ⟨5, 10, 0⟩ ∧ (9 : Int) - (10 : Int) < 0 ∧
    (update_streak dbSkew 1 9).2 = 1 :=
  ⟨rfl, by decide,
   update_streak_negative_gap dbSkew 1 9 ⟨5, 10, 0⟩ rfl (by decide)⟩

/-! ### C2: riga award policy -/

/-- C2: for every study event, the riga award is 0 when the new streak is
in `[1, 6]`; when the new streak is at least 7 and the event is the first
record of the logical day, the award is `min(streak - 6, 50)`; when the
new streak is at least 7 and the event is not the first of the day, the
award is exactly 1. -/
theorem recordStudy_award_policy (db : Db) (u : UserId) (d : Int)
    (res : StudyResult)
    (h : (recordStudy db u d).map Prod.snd = some res) :
    (1 ≤ res.streak → res.streak ≤ 6 → res.awarded = 0) ∧
    (7 ≤ res.streak → is_first_record_of_day db u d = true →
      res.awarded = min (res.streak - 6) 50) ∧
    (7 ≤ res.streak → is_first_record_of_day db u d = false →
      res.awarded = 1) := by
  by_cases h7 : 7 ≤ new_streak_of (db u) d
  · cases hf : is_first_record_of_day db u d
    · rw [recordStudy_high_repeat db u d h7 hf] at h
      simp only [Option.map_some', Option.some.injEq] at h
      subst h
      refine ⟨fun _ hle => absurd h7 (by simp at hle ⊢; omega),
              fun _ hft => absurd hft (by simp),
              fun _ _ => rfl⟩
    · rw [recordStudy_high_first db u d h7 hf] at h
      simp only [Option.map_some', Option.some.injEq] at h
      subst h
      refine ⟨fun _ hle => absurd h7 (by simp at hle ⊢; omega),
              fun _ _ => rfl,
              fun _ hff => absurd hff (by simp)⟩
  · rw [recordStudy_low db u d h7] at h
    simp only [Option.map_some', Option.some.injEq] at h
    subst h
    exact ⟨fun _ _ => rfl,
           fun h7' _ => absurd h7' (by simpa using h7),
           fun h7' _ => absurd h7' (by simpa using h7)⟩

/-- A table with one row: user 1, streak 9, last study day 100, balance 0. -/
def dbStreak9 : Db := fun u => if u = 1 then some ⟨9, 100, 0⟩ else none

/-- A table with one row: user 1, streak 59, last study day 100, balance 0. -/
def dbStreak59 : Db := fun u => if u = 1 then some ⟨59, 100, 0⟩ else none

/-- A table with one row: user 1, streak 7, last study day 101, balance 3. -/
def dbSameDay7 : Db := fun u => if u = 1 then some ⟨7, 101, 3⟩ else none

/-- C2 witness: a first-ever event awards 0; streak 10 first-of-day awards
`min(4, 50) = 4`; streak 60 first-of-day awards `min(54, 50) = 50`; a
same-day repeat at streak 7 awards 1. -/
theorem recordStudy_award_policy_witness :
    ((recordStudy dbEmpty 1 5).map Prod.snd = some ⟨1, 0, 0⟩ ∧
      (1 : Int) ≤ 1 ∧ (1 : Int) ≤ 6 ∧
      (⟨1, 0, 0⟩ : StudyResult).awarded = 0) ∧
    ((recordStudy dbStreak9 1 101).map Prod.snd = some ⟨10, 4, 4⟩ ∧
      is_first_record_of_day dbStreak9 1 101 = true ∧
      (⟨10, 4, 4⟩ : StudyResult).awarded =
        min ((⟨10, 4, 4⟩ : StudyResult).streak - 6) 50) ∧
    ((recordStudy dbStreak59 1 101).map Prod.snd = some ⟨60, 50, 50⟩ ∧
      (⟨60, 50, 50⟩ : StudyResult).awarded =
        min ((⟨60, 50, 50⟩ : StudyResult).streak - 6) 50) ∧
    ((recordStudy dbSameDay7 1 101).map Prod.snd = some ⟨7, 1, 4⟩ ∧
      is_first_record_of_day dbSameDay7 1 101 = false ∧
      (⟨7, 1, 4⟩ : StudyResult).awarded = 1) :=
  ⟨⟨by decide, by decide, by decide,
    (recordStudy_award_policy dbEmpty 1 5 ⟨1, 0, 0⟩ (by decide)).1
      (by decide) (by decide)⟩,
   ⟨by decide, by decide,
    (recordStudy_award_policy dbStreak9 1 101 ⟨10, 4, 4⟩ (by decide)).2.1
      (by decide) (by decide)⟩,
   ⟨by decide,
    (recordStudy_award_policy dbStreak59 1 101 ⟨60, 50, 50⟩ (by decide)).2.1
      (by decide) (by decide)⟩,
   ⟨by decide, by decide,
    (recordStudy_award_policy dbSameDay7 1 101 ⟨7, 1, 4⟩ (by decide)).2.2
      (by decide) (by decide)⟩⟩

/-! ### Lemmas about `send` -/

theorem send_success_inv (db : Db) (s r : UserId) (a : Int)
    (h : (send db s r a).2 = none) :
    s ≠ r ∧ 0 < a ∧ ∃ srow, db s = some srow ∧
      ¬ srow.riga_coin_balance < a := by
  unfold send at h
  by_cases h1 : s = r
  · rw [if_pos h1] at h
    simp at h
  · rw [if_neg h1] at h
    by_cases h2 : a ≤ 0
    · rw [if_pos h2] at h
      simp at h
    · rw [if_neg h2] at h
      cases hs : db s with
      | none =>
          rw [hs] at h
          simp at h
      | some srow =>
          rw [hs] at h
          by_cases h3 : srow.riga_coin_balance < a
          · rw [show (match some srow with
                | none => (db, some TransferError.InsufficientFunds)
                | some srow => if srow.riga_coin_balance < a then
                    (db, some TransferError.InsufficientFunds)
                  else _ : Db × Option TransferError).2 =
                  some TransferError.InsufficientFunds from by
                  simp [if_pos h3]] at h
            · simp at h
          · exact ⟨h1, by omega, srow, rfl, h3⟩

theorem send_success_eq (db : Db) (s r : UserId) (a : Int)
    (hne : s ≠ r) (hpos : 0 < a) (srow : UserStats) (hs : db s = some srow)
    (hbal : ¬ srow.riga_coin_balance < a) :
    send db s r a =
      (fun v =>
        if v = r then
          match db r with
          | none => some ⟨0, date1970_01_01, a⟩
          | some rrow =>
              some { rrow with
                     riga_coin_balance := rrow.riga_coin_balance + a }
        else if v = s then
          some { srow with
                 riga_coin_balance := srow.riga_coin_balance - a }
        else db v,
       none) := by
  have hrs : ¬ r = s := fun hrs => hne hrs.symm
  unfold send
  rw [if_neg hne, if_neg (not_le.mpr hpos), hs]
  simp only [if_neg hbal, if_neg hrs, Prod.mk.injEq]

/-! ### C4: transfer validation (corrected: SelfTransfer is checked first) -/

/-- C4 counterexample: at sender = recipient = 1 and amount = 0 the code
rejects with `SelfTransfer`, although the claim requires `InvalidAmount`
whenever `amount <= 0`. -/
theorem send_invalid_amount_cex :
    (0 : Int) ≤ 0 ∧
    (send dbEmpty 1 1 0).2 = some TransferError.SelfTransfer ∧
    (send dbEmpty 1 1 0).2 ≠ some TransferError.InvalidAmount := by
  refine ⟨by decide, ?_, ?_⟩ <;> decide

/-- C4 amended: a transfer is rejected with `SelfTransfer` when sender
equals recipient (this check runs first, so it wins when both conditions
hold), with `InvalidAmount` when sender differs from recipient and
`amount <= 0`, and with `InsufficientFunds` when the sender has no row or
a balance below `amount`; in every rejection case the table is returned
unchanged. -/
theorem send_rejections (db : Db) (s r : UserId) (a : Int) :
    (s = r → send db s r a = (db, some TransferError.SelfTransfer)) ∧
    (s ≠ r → a ≤ 0 → send db s r a = (db, some TransferError.InvalidAmount)) ∧
    (s ≠ r → 0 < a → db s = none →
      send db s r a = (db, some TransferError.InsufficientFunds)) ∧
    (∀ srow, s ≠ r → 0 < a → db s = some srow →
      srow.riga_coin_balance < a →
      send db s r a = (db, some TransferError.InsufficientFunds)) := by
  refine ⟨fun h1 => ?_, fun h1 h2 => ?_, fun h1 h2 hs => ?_,
          fun srow h1 h2 hs h3 => ?_⟩
  · unfold send
    rw [if_pos h1]
  · unfold send
    rw [if_neg h1, if_pos h2]
  · unfold send
    rw [if_neg h1, if_neg (not_le.mpr h2), hs]
  · unfold send
    rw [if_neg h1, if_neg (not_le.mpr h2), hs]
    simp only [if_pos h3]

/-- A table where user 1 has streak 3, last study day 50, balance 10, and
no other user has a row. -/
def dbPair : Db := fun u => if u = 1 then some ⟨3, 50, 10⟩ else none

/-- C4 amended witness: each rejection at a concrete input, with the table
unchanged. -/
theorem send_rejections_witness :
    ((1 : UserId) = 1 ∧
      send dbPair 1 1 5 = (dbPair, some TransferError.SelfTransfer)) ∧
    ((1 : UserId) ≠ 2 ∧ (0 : Int) ≤ 0 ∧
      send dbPair 1 2 0 = (dbPair, some TransferError.InvalidAmount)) ∧
    ((2 : UserId) ≠ 1 ∧ (0 : Int) < 5 ∧ dbPair 2 = none ∧
      send dbPair 2 1 5 = (dbPair, some TransferError.InsufficientFunds)) ∧
    ((1 : UserId) ≠ 2 ∧ (0 : Int) < 99 ∧ dbPair 1 = some ⟨3, 50, 10⟩ ∧
      (⟨3, 50, 10⟩ : UserStats).riga_coin_balance < 99 ∧
      send dbPair 1 2 99 = (dbPair, some TransferError.InsufficientFunds)) :=
  ⟨⟨rfl, (send_rejections dbPair 1 1 5).1 rfl⟩,
   ⟨by decide, by decide,
    (send_rejections dbPair 1 2 0).2.1 (by decide) (by decide)⟩,
   ⟨by decide, by decide, rfl,
    (send_rejections dbPair 2 1 5).2.2.1 (by decide) (by decide) rfl⟩,
   ⟨by decide, by decide, rfl, by decide,
    (send_rejections dbPair 1 2 99).2.2.2 ⟨3, 50, 10⟩ (by decide) (by decide)
      rfl (by decide)⟩⟩

/-! ### C3: successful transfer moves the funds -/

/-- C3: every transfer that passes validation and the funds check debits
the sender by exactly `amount` and credits the recipient by exactly
`amount`; an absent recipient row is created as
`(current_streak = 0, last_study_date = 1970-01-01, balance = amount)`,
and an existing recipient row is only incremented. -/
theorem send_success_moves_funds (db : Db) (s r : UserId) (a : Int)
    (h : (send db s r a).2 = none) :
    balanceOf (send db s r a).1 s = balanceOf db s - a ∧
    balanceOf (send db s r a).1 r = balanceOf db r + a ∧
    (db r = none → (send db s r a).1 r = some ⟨0, date1970_01_01, a⟩) ∧
    (∀ rrow, db r = some rrow →
      (send db s r a).1 r =
        some { rrow with
               riga_coin_balance := rrow.riga_coin_balance + a }) := by
  obtain ⟨hne, hpos, srow, hs, hbal⟩ := send_success_inv db s r a h
  have hrs : ¬ r = s := fun hrs => hne hrs.symm
  rw [send_success_eq db s r a hne hpos srow hs hbal]
  refine ⟨?_, ?_, fun hr => ?_, fun rrow hr => ?_⟩
  · simp [balanceOf, if_neg hne, hs]
  · cases hr : db r <;> simp [balanceOf, hr]
  · simp [hr]
  · simp [hr]

/-- A table where user 1 has streak 3, last study day 50, balance 10, and
user 2 has streak 8, last study day 61, balance 5. -/
def dbTwo : Db := fun u =>
  if u = 1 then some ⟨3, 50, 10⟩
  else if u = 2 then some ⟨8, 61, 5⟩
  else none

/-- C3 witness: a successful transfer of 4 from user 1 to absent user 2
debits 1 and creates 2 with the sentinel row; a successful transfer of 4
from user 1 to existing user 2 only increments 2's balance. -/
theorem send_success_moves_funds_witness :
    ((send dbPair 1 2 4).2 = none ∧
      balanceOf (send dbPair 1 2 4).1 1 = balanceOf dbPair 1 - 4 ∧
      dbPair 2 = none ∧
      (send dbPair 1 2 4).1 2 = some ⟨0, date1970_01_01, 4⟩) ∧
    ((send dbTwo 1 2 4).2 = none ∧
      balanceOf (send dbTwo 1 2 4).1 2 = balanceOf dbTwo 2 + 4 ∧
      dbTwo 2 = some ⟨8, 61, 5⟩ ∧
      (send dbTwo 1 2 4).1 2 = some ⟨8, 61, 5 + 4⟩) :=
  ⟨⟨by decide,
    (send_success_moves_funds dbPair 1 2 4 (by decide)).1,
    rfl,
    (send_success_moves_funds dbPair 1 2 4 (by decide)).2.2.1 rfl⟩,
   ⟨by decide,
    (send_success_moves_funds dbTwo 1 2 4 (by decide)).2.1,
    rfl,
    (send_success_moves_funds dbTwo 1 2 4 (by decide)).2.2.2 ⟨8, 61, 5⟩ rfl⟩⟩

/-! ### C10: successful transfer touches only the two balances -/

/-- C10: a successful transfer modifies only the two riga balances: every
other user's row is untouched, the sender's streak and last study date are
unchanged, and an existing recipient's streak and last study date are
unchanged. -/
theorem send_success_frame (db : Db) (s r : UserId) (a : Int)
    (h : (send db s r a).2 = none) :
    (∀ v, v ≠ s → v ≠ r → (send db s r a).1 v = db v) ∧
    ((send db s r a).1 s).map UserStats.current_streak =
      (db s).map UserStats.current_streak ∧
    ((send db s r a).1 s).map UserStats.last_study_date =
      (db s).map UserStats.last_study_date ∧
    (∀ rrow, db r = some rrow →
      ((send db s r a).1 r).map UserStats.current_streak =
        some rrow.current_streak ∧
      ((send db s r a).1 r).map UserStats.last_study_date =
        some rrow.last_study_date) := by
  obtain ⟨hne, hpos, srow, hs, hbal⟩ := send_success_inv db s r a h
  rw [send_success_eq db s r a hne hpos srow hs hbal]
  refine ⟨fun v hvs hvr => ?_, ?_, ?_, fun rrow hr => ?_⟩
  · simp [if_neg hvr, if_neg hvs]
  · simp [if_neg hne, hs]
  · simp [if_neg hne, hs]
  · simp [hr]

/-- C10 witness: after a successful transfer from 1 to 2, user 3's row is
untouched, user 1 keeps streak and date, and the pre-existing user 2 keeps
streak and date. -/
theorem send_success_frame_witness :
    (send dbTwo 1 2 4).2 = none ∧
    ((3 : UserId) ≠ 1 ∧ (3 : UserId) ≠ 2 ∧
      (send dbTwo 1 2 4).1 3 = dbTwo 3) ∧
    ((send dbTwo 1 2 4).1 1).map UserStats.current_streak =
      (dbTwo 1).map UserStats.current_streak ∧
    (dbTwo 2 = some ⟨8, 61, 5⟩ ∧
      ((send dbTwo 1 2 4).1 2).map UserStats.current_streak = some 8 ∧
      ((send dbTwo 1 2 4).1 2).map UserStats.last_study_date = some 61) :=
  ⟨by decide,
   ⟨by decide, by decide,
    (send_success_frame dbTwo 1 2 4 (by decide)).1 3 (by decide) (by decide)⟩,
   (send_success_frame dbTwo 1 2 4 (by decide)).2.1,
   ⟨rfl,
    ((send_success_frame dbTwo 1 2 4 (by decide)).2.2.2 ⟨8, 61, 5⟩ rfl).1,
    ((send_success_frame dbTwo 1 2 4 (by decide)).2.2.2 ⟨8, 61, 5⟩ rfl).2⟩⟩

/-! ### C7: reminder selection (corrected: the caller supplies today - 1) -/

/-- C7 counterexample: at a 22:00 JST run on local day 20000,
`check_for_reminders` supplies `20000 - 1` as `previous_study_day`, not
`20000 - 2` as the claim requires. -/
theorem check_for_reminders_prev_day_cex :
    get_study_date ⟨20000, 22, 0⟩ = 20000 ∧
    check_for_reminders_prev_day ⟨20000, 22, 0⟩ = 20000 - 1 ∧
    check_for_reminders_prev_day ⟨20000, 22, 0⟩ ≠ 20000 - 2 := by
  refine ⟨?_, ?_, ?_⟩ <;> decide

/-- C7 amended: the reminder selector returns exactly the users whose
`last_study_date` equals the supplied `previous_study_day`, and the
scheduled caller supplies today minus 1 logical day, so users who studied
on the previous logical day and have not studied since are selected. -/
theorem reminder_selection (db : Db) (previous_study_day : Int)
    (u : UserId) (now : JstTime) :
    (reminder_target db previous_study_day u = true ↔
      ∃ row, db u = some row ∧ row.last_study_date = previous_study_day) ∧
    check_for_reminders_prev_day now = get_study_date now - 1 :=
  ⟨by cases hdb : db u <;> simp [reminder_target, hdb], rfl⟩

/-- C7 amended witness: user 2 of `dbTwo` (last study day 61) is selected
for previous day 61, and the 22:00 caller on day 20000 supplies 19999. -/
theorem reminder_selection_witness :
    reminder_target dbTwo 61 2 = true ∧
    check_for_reminders_prev_day ⟨20000, 22, 0⟩ =
      get_study_date ⟨20000, 22, 0⟩ - 1 :=
  ⟨(reminder_selection dbTwo 61 2 ⟨20000, 22, 0⟩).1.mpr ⟨⟨8, 61, 5⟩, rfl, rfl⟩,
   (reminder_selection dbTwo 61 2 ⟨20000, 22, 0⟩).2⟩

/-! ### C9: low-streak events never touch or report the stored balance -/

theorem balanceOf_update_streak (db : Db) (u v : UserId) (d : Int) :
    balanceOf (update_streak db u d).1 v = balanceOf db v := by
  simp only [balanceOf]
  by_cases hv : v = u
  · subst hv
    rw [update_streak_fst_self]
    cases hdb : db v <;> simp [balanceOf, hdb]
  · rw [update_streak_fst_other db u v d hv]

/-- C9: for every study event whose resulting streak is below 7, the
riga award is 0, the balance reported to the caller is the literal 0
regardless of the stored balance, and no user's riga balance is changed
(a freshly created row carries the column default 0). -/
theorem recordStudy_low_streak_balance (db : Db) (u : UserId) (d : Int)
    (res : StudyResult)
    (h : (recordStudy db u d).map Prod.snd = some res)
    (hs : res.streak < 7) :
    res.awarded = 0 ∧ res.balance = 0 ∧
    ∀ v, (recordStudy db u d).map (fun p => balanceOf p.1 v) =
      some (balanceOf db v) := by
  by_cases h7 : 7 ≤ new_streak_of (db u) d
  · cases hf : is_first_record_of_day db u d
    · rw [recordStudy_high_repeat db u d h7 hf] at h
      simp only [Option.map_some', Option.some.injEq] at h
      subst h
      exact absurd h7 (by simp at hs ⊢; omega)
    · rw [recordStudy_high_first db u d h7 hf] at h
      simp only [Option.map_some', Option.some.injEq] at h
      subst h
      exact absurd h7 (by simp at hs ⊢; omega)
  · rw [recordStudy_low db u d h7] at h
    simp only [Option.map_some', Option.some.injEq] at h
    subst h
    refine ⟨rfl, rfl, fun v => ?_⟩
    rw [recordStudy_low db u d h7]
    simp only [Option.map_some', Option.some.injEq]
    exact balanceOf_update_streak db u v d

/-- A table where user 1 holds 100 riga received by transfer only: streak
0 and the sentinel study date, as `/send` creates recipients. -/
def dbRich : Db := fun u => if u = 1 then some ⟨0, 0, 100⟩ else none

/-- C9 witness: user 1 holds 100 riga but a first study event reports
streak 1, award 0 and balance 0, and their stored balance stays 100. -/
theorem recordStudy_low_streak_balance_witness :
    (recordStudy dbRich 1 500).map Prod.snd = some ⟨1, 0, 0⟩ ∧
    (⟨1, 0, 0⟩ : StudyResult).streak < 7 ∧
    (⟨1, 0, 0⟩ : StudyResult).balance = 0 ∧
    (recordStudy dbRich 1 500).map (fun p => balanceOf p.1 1) = some 100 :=
  ⟨by decide, by decide,
   (recordStudy_low_streak_balance dbRich 1 500 ⟨1, 0, 0⟩ (by decide)
      (by decide)).2.1,
   (recordStudy_low_streak_balance dbRich 1 500 ⟨1, 0, 0⟩ (by decide)
      (by decide)).2.2 1⟩

/-! ### C8: riga balances never go negative -/

theorem balanceOf_nonneg (db : Db) (h : BalancesNonneg db) (v : UserId) :
    0 ≤ balanceOf db v := by
  cases hdb : db v with
  | none => simp [balanceOf, hdb]
  | some row => simpa [balanceOf, hdb] using h v row hdb

theorem balancesNonneg_update (db : Db) (h : BalancesNonneg db)
    (u : UserId) (row : UserStats) (hrow : 0 ≤ row.riga_coin_balance) :
    BalancesNonneg (fun v => if v = u then some row else db v) := by
  intro v r hv
  have hv' : (if v = u then some row else db v) = some r := hv
  by_cases hvu : v = u
  · rw [if_pos hvu] at hv'
    injection hv' with hv'
    subst hv'
    exact hrow
  · rw [if_neg hvu] at hv'
    exact h v r hv' 

theorem send_rollback_or_success (db : Db) (s r : UserId) (a : Int) :
    (send db s r a).1 = db ∨ (send db s r a).2 = none := by
  unfold send
  by_cases h1 : s = r
  · rw [if_pos h1]
    exact .inl rfl
  · rw [if_neg h1]
    by_cases h2 : a ≤ 0
    · rw [if_pos h2]
      exact .inl rfl
    · rw [if_neg h2]
      cases hs : db s with
      | none => exact .inl rfl
      | some srow =>
          by_cases h3 : srow.riga_coin_balance < a
          · simp [if_pos h3]
          · simp [if_neg h3]

theorem balancesNonneg_send (db : Db) (h : BalancesNonneg db)
    (s r : UserId) (a : Int) : BalancesNonneg (send db s r a).1 := by
  rcases send_rollback_or_success db s r a with hrb | hok
  · rw [hrb]
    exact h
  · obtain ⟨hne, hpos, srow, hs, hbal⟩ := send_success_inv db s r a hok
    rw [send_success_eq db s r a hne hpos srow hs hbal]
    have h1 : BalancesNonneg (fun v =>
        if v = s then
          some { srow with
                 riga_coin_balance := srow.riga_coin_balance - a }
        else db v) :=
      balancesNonneg_update db h s _
        (show 0 ≤ srow.riga_coin_balance - a by omega)
    cases hr : db r with
    | none =>
        exact balancesNonneg_update _ h1 r ⟨0, date1970_01_01, a⟩
          (show (0 : Int) ≤ a by omega)
    | some rrow =>
        have hnn := h r rrow hr
        exact balancesNonneg_update _ h1 r
          { rrow with riga_coin_balance := rrow.riga_coin_balance + a }
          (show 0 ≤ rrow.riga_coin_balance + a by omega)

theorem balancesNonneg_applyOp (db : Db) (h : BalancesNonneg db) (op : Op) :
    BalancesNonneg (applyOp db op) := by
  cases op with
  | transfer s r a => exact balancesNonneg_send db h s r a
  | study u d =>
      show BalancesNonneg (match recordStudy db u d with
        | none => db
        | some (db', _) => db')
      have hbal := balanceOf_nonneg db h u
      by_cases h7 : 7 ≤ new_streak_of (db u) d
      · cases hf : is_first_record_of_day db u d
        · rw [recordStudy_high_repeat db u d h7 hf]
          exact balancesNonneg_update db h u
            ⟨new_streak_of (db u) d, d, balanceOf db u + 1⟩
            (show 0 ≤ balanceOf db u + 1 by omega)
        · rw [recordStudy_high_first db u d h7 hf]
          exact balancesNonneg_update db h u
            ⟨new_streak_of (db u) d, d,
             balanceOf db u + min (new_streak_of (db u) d - 6) 50⟩
            (show 0 ≤ balanceOf db u + min (new_streak_of (db u) d - 6) 50 by
              have h50 : (0 : Int) ≤ min (new_streak_of (db u) d - 6) 50 :=
                le_min (by omega) (by omega)
              omega)
      · rw [recordStudy_low db u d h7]
        intro v row hv
        have hv' : (update_streak db u d).1 v = some row := hv
        by_cases hvu : v = u
        · subst hvu
          rw [update_streak_fst_self] at hv'
          injection hv' with hv'
          subst hv'
          exact hbal
        · rw [update_streak_fst_other db u v d hvu] at hv'
          exact h v row hv' 

/-- C8: starting from a table whose riga balances are all non-negative,
every sequence of study events and transfers keeps every riga balance
non-negative. -/
theorem riga_balance_nonneg_invariant (db : Db) (ops : List Op)
    (h : BalancesNonneg db) : BalancesNonneg (applyOps db ops) := by
  induction ops generalizing db with
  | nil => exact h
  | cons op rest ih => exact ih (applyOp db op) (balancesNonneg_applyOp db h op)

/-- C8 witness: from the concrete non-negative table `dbTwo`, a study
event followed by a transfer leaves all balances non-negative. -/
theorem riga_balance_nonneg_invariant_witness :
    BalancesNonneg dbTwo ∧
    BalancesNonneg (applyOps dbTwo [Op.study 2 62, Op.transfer 2 1 3]) := by
  have hnn : BalancesNonneg dbTwo := by
    intro v row hv
    unfold dbTwo at hv
    split at hv
    · injection hv with hv
      subst hv
      decide
    · split at hv
      · injection hv with hv
        subst hv
        decide
      · exact absurd hv (by simp)
  exact ⟨hnn,
    riga_balance_nonneg_invariant dbTwo [Op.study 2 62, Op.transfer 2 1 3] hnn⟩

end Stella
